import Mathlib

/-!
Verification of the rabbitize recon core (src/recon/main.py) against its
natural-language specification.  Each definition below is a shallow embedding
of a function of src/recon/main.py; the line numbers of the embedded code are
given in the doc comments.  Machine floats of the source are modelled as
exact rationals, byte strings as lists of byte values, Python dicts as
association lists.
-/

namespace Recon

/-! ## String helpers

Python substring containment (`pat in text`) after lowercasing, modelled over
the character lists of the two strings. -/

/-- Character-wise lowercase of a string, as its list of characters.
Models the Python `str.lower()` call (ASCII is all the source uses). -/
def lowerChars (s : String) : List Char := s.data.map Char.toLower

/-- Does the first list lead (start) the second one? -/
def leadsWith : List Char → List Char → Bool
  | [], _ => true
  | _ :: _, [] => false
  | a :: as, b :: bs => a == b && leadsWith as bs

/-- Does the first list occur contiguously inside the second one? -/
def hasSub : List Char → List Char → Bool
  | pat, [] => pat.isEmpty
  | pat, c :: rest => leadsWith pat (c :: rest) || hasSub pat rest

/-- Models Python `pat.lower() in hay.lower()`. -/
def containsSub (pat hay : String) : Bool :=
  hasSub (lowerChars pat) (lowerChars hay)

/-! ## Progress heuristic (src/recon/main.py lines 1836-1880) -/

/-- The positive indicator list of detect_progress_from_alignment
(main.py lines 1846-1850). -/
def positive_indicators : List String :=
  ["successful", "success", "progress", "aligned", "intended",
   "achieved", "moved", "changed", "clicked", "loaded", "appeared",
   "correctly", "as expected", "visible", "displayed"]

/-- The negative indicator list of detect_progress_from_alignment
(main.py lines 1853-1857). -/
def negative_indicators : List String :=
  ["not aligned", "unsuccessful", "failed", "no change", "same",
   "stuck", "did not", "didn\x27t", "hasn\x27t", "no progress", "not as intended",
   "not working", "unintended", "incorrect", "error", "missing"]

/-- The tie-break phrase list of detect_progress_from_alignment
(main.py line 1875). -/
def tie_break_phrases : List String :=
  ["no change", "did not", "didn\x27t", "hasn\x27t", "same"]

/-- Number of positive indicators contained in the text (main.py line 1860). -/
def positiveCount (t : String) : Nat :=
  positive_indicators.countP (fun w => containsSub w t)

/-- Number of negative indicators contained in the text (main.py line 1861). -/
def negativeCount (t : String) : Nat :=
  negative_indicators.countP (fun w => containsSub w t)

/-- Is the text empty or whitespace-only?  Models the guard
`if not alignment_text or len(alignment_text.strip()) == 0` (main.py line 1842). -/
def blankText (t : String) : Bool := t.data.all Char.isWhitespace

/-- Embedding of detect_progress_from_alignment (main.py lines 1836-1880):
count positive and negative indicator phrases, compare, and break ties on
the presence of a strong negative phrase. -/
def detect_progress_from_alignment (t : String) : Bool :=
  if blankText t then false
  else if positiveCount t < negativeCount t then false
  else if negativeCount t < positiveCount t then true
  else if tie_break_phrases.any (fun w => containsSub w t) then false
  else true

/-- Claim C10: an alignment text that is empty or whitespace-only makes the
progress heuristic return false.  The guard on main.py line 1842 returns
before any indicator phrase is evaluated; denotationally that is the
statement below. -/
theorem blank_alignment_not_progress (t : String) (h : blankText t = true) :
    detect_progress_from_alignment t = false := by
  simp [detect_progress_from_alignment, h]

/-- Witness for C10 at the one-space text. -/
theorem blank_alignment_not_progress_witness :
    blankText " " = true ∧ detect_progress_from_alignment " " = false :=
  ⟨by decide, blank_alignment_not_progress " " (by decide)⟩

/-- Counterexample to claim C8 as stated: the text below has one positive
indicator (clicked) and one negative indicator (the contraction of did not),
hence a tie; it contains none of the three phrases the claim lists for the
tie-break, so the claim predicts true, yet the code returns false because its
tie-break list (main.py line 1875) also holds the contractions of did not and
has not. -/
theorem progress_tie_break_counterexample :
    positiveCount "clicked but didn\x27t" = negativeCount "clicked but didn\x27t" ∧
    (["no change", "did not", "same"].any
        (fun w => containsSub w "clicked but didn\x27t")) = false ∧
    detect_progress_from_alignment "clicked but didn\x27t" = false := by
  refine ⟨by decide, by decide, by decide⟩

/-- Claim C8 (amended): the heuristic returns true when positives strictly
outnumber negatives, false when negatives strictly outnumber positives, and,
for non-blank text, on a tie returns false exactly when one of the five
tie-break phrases (no change, did not, the contractions of did not and has
not, same) occurs in the text; the two example texts of the claim evaluate to
false and true respectively. -/
theorem progress_heuristic_amended (t : String) (hb : blankText t = false) :
    (negativeCount t < positiveCount t → detect_progress_from_alignment t = true) ∧
    (positiveCount t < negativeCount t → detect_progress_from_alignment t = false) ∧
    (positiveCount t = negativeCount t →
      (detect_progress_from_alignment t = false ↔
        tie_break_phrases.any (fun w => containsSub w t) = true)) ∧
    detect_progress_from_alignment "Not aligned, no change observed" = false ∧
    detect_progress_from_alignment "Successfully clicked, new panel appeared" = true := by
  refine ⟨?_, ?_, ?_, by decide, by decide⟩
  · intro h
    simp only [detect_progress_from_alignment, hb, Bool.false_eq_true, if_false]
    rw [if_neg (by omega), if_pos h]
  · intro h
    simp only [detect_progress_from_alignment, hb, Bool.false_eq_true, if_false]
    rw [if_pos h]
  · intro h
    simp only [detect_progress_from_alignment, hb, Bool.false_eq_true, if_false]
    rw [if_neg (by omega), if_neg (by omega)]
    cases hany : tie_break_phrases.any (fun w => containsSub w t) <;> simp [hany]

/-- Witness for the amended C8 at a concrete tie with no tie-break phrase. -/
theorem progress_heuristic_amended_witness :
    blankText "moved yet failed" = false ∧
    (positiveCount "moved yet failed" = negativeCount "moved yet failed" →
      (detect_progress_from_alignment "moved yet failed" = false ↔
        tie_break_phrases.any (fun w => containsSub w "moved yet failed") = true)) :=
  ⟨by decide, (progress_heuristic_amended "moved yet failed" (by decide)).2.2.1⟩

/-! ## Dynamic sampling temperature (src/recon/main.py lines 1882-1910 and 2680-2695)

The Python floats 0.1 .. 0.9 are exact decimals; they are modelled as exact
rationals, so every arithmetic step of the source is mirrored exactly. -/

/-- Embedding of calculate_dynamic_temperature (main.py lines 1882-1910):
base 3/10; lowered to max (2/10) (base - 1/10) on progress with screenshot
distance above 10; raised by min (4/10) (stuck_counter / 10) when the stuck
counter exceeds 1. -/
def calculate_dynamic_temperature (stuck_counter : Nat) (is_making_progress : Bool)
    (screenshot_distance : Int) : ℚ :=
  if is_making_progress ∧ 10 < screenshot_distance then
    max (2/10) (3/10 - 1/10)
  else if 1 < stuck_counter then
    3/10 + min (4/10) ((stuck_counter : ℚ) * (1/10))
  else
    3/10

/-- Embedding of the diversity boost and clamp around the call site
(main.py lines 2680-2695): a boost of (2/10) * (1 - diversity) when the
diversity score is below 4/10, then a clamp at 9/10. -/
def temperature_with_diversity (stuck_counter : Nat) (is_making_progress : Bool)
    (screenshot_distance : Int) (diversity_score : ℚ) : ℚ :=
  min (9/10)
    (calculate_dynamic_temperature stuck_counter is_making_progress screenshot_distance
      + (if diversity_score < 4/10 then (2/10) * (1 - diversity_score) else 0))

/-- The base value 2/10 is a lower bound of calculate_dynamic_temperature. -/
theorem calc_temp_lower_bound (s : Nat) (p : Bool) (d : Int) :
    (2:ℚ)/10 ≤ calculate_dynamic_temperature s p d := by
  unfold calculate_dynamic_temperature
  split
  · exact le_max_left _ _
  · split
    · have h : (0:ℚ) ≤ min ((4:ℚ)/10) ((s : ℚ) * (1/10)) :=
        le_min (by norm_num) (by positivity)
      linarith
    · norm_num

/-- Claim C5: the composed temperature (stuck/progress base plus diversity
boost, then clamp) always lies in the interval from 1/10 to 9/10; when making
progress with a screenshot distance above 10 the base value is lowered to
2/10, below the base 3/10; when stuck for more than one step (and not in the
progress branch) the base value is 3/10 plus a boost proportional to the
stuck counter and capped at 4/10, monotone in the counter; a diversity score
below 4/10 adds 2/10 times (1 - diversity), a positive amount; the final
value is clamped at 9/10. -/
theorem temperature_contract (stuck : Nat) (progress : Bool) (dist : Int) (div : ℚ)
    (h0 : 0 ≤ div) (h1 : div ≤ 1) :
    ((1:ℚ)/10 ≤ temperature_with_diversity stuck progress dist div ∧
      temperature_with_diversity stuck progress dist div ≤ 9/10) ∧
    (progress = true → 10 < dist →
      calculate_dynamic_temperature stuck progress dist = 2/10 ∧
      calculate_dynamic_temperature stuck progress dist < 3/10) ∧
    (progress = false → 1 < stuck →
      calculate_dynamic_temperature stuck progress dist
        = 3/10 + min (4/10) ((stuck : ℚ) * (1/10))) ∧
    (∀ s t : Nat, s ≤ t →
      calculate_dynamic_temperature s false dist ≤
        calculate_dynamic_temperature t false dist) ∧
    (div < 4/10 →
      temperature_with_diversity stuck progress dist div
        = min (9/10)
            (calculate_dynamic_temperature stuck progress dist + (2/10) * (1 - div)) ∧
      0 < (2/10) * (1 - div)) := by
  have hboost0 : (0:ℚ) ≤ (if div < 4/10 then (2/10) * (1 - div) else 0) := by
    split
    · have : (0:ℚ) ≤ 1 - div := by linarith
      positivity
    · exact le_rfl
  refine ⟨⟨?_, ?_⟩, ?_, ?_, ?_, ?_⟩
  · have hlb := calc_temp_lower_bound stuck progress dist
    unfold temperature_with_diversity
    refine le_min (by norm_num) (by linarith)
  · exact min_le_left _ _
  · intro hp hd
    unfold calculate_dynamic_temperature
    rw [if_pos ⟨hp, hd⟩]
    norm_num
  · intro hp hs
    unfold calculate_dynamic_temperature
    rw [if_neg (by simp [hp]), if_pos hs]
  · intro s t hst
    unfold calculate_dynamic_temperature
    simp only [Bool.false_eq_true, false_and, if_false]
    split
    · rw [if_pos (by omega)]
      have : ((s : ℚ)) * (1/10) ≤ ((t : ℚ)) * (1/10) := by
        have : (s : ℚ) ≤ (t : ℚ) := by exact_mod_cast hst
        linarith
      have hmin : min ((4:ℚ)/10) ((s : ℚ) * (1/10)) ≤ min ((4:ℚ)/10) ((t : ℚ) * (1/10)) :=
        min_le_min le_rfl this
      linarith
    · split
      · have h : (0:ℚ) ≤ min ((4:ℚ)/10) ((t : ℚ) * (1/10)) :=
          le_min (by norm_num) (by positivity)
        linarith
      · exact le_rfl
  · intro hdlt
    refine ⟨?_, ?_⟩
    · unfold temperature_with_diversity
      rw [if_pos hdlt]
    · have : (0:ℚ) < 1 - div := by linarith
      positivity

/-- Witness for C5 at stuck counter 2, no progress, distance 0, diversity 1/2. -/
theorem temperature_contract_witness :
    (0 ≤ (1:ℚ)/2 ∧ (1:ℚ)/2 ≤ 1) ∧
    ((1:ℚ)/10 ≤ temperature_with_diversity 2 false 0 (1/2) ∧
      temperature_with_diversity 2 false 0 (1/2) ≤ 9/10) :=
  ⟨⟨by norm_num, by norm_num⟩,
    (temperature_contract 2 false 0 (1/2) (by norm_num) (by norm_num)).1⟩

/-! ## History entries (src/recon/main.py lines 4601-4611)

A history entry keeps the fields the claims touch: tool name, arguments
(a Python dict of int-valued arguments, modelled as an association list),
screenshot bytes (modelled as a list of byte values), the agent explanation
text and the stuck counter snapshot. -/

structure HistoryEntry where
  tool_name : String
  args : List (String × Int)
  screenshot : List Nat
  agent_explanation : String
  stuck_counter : Nat
deriving DecidableEq

/-- A default entry, used only as the out-of-range default of list lookups. -/
def emptyEntry : HistoryEntry :=
  { tool_name := "", args := [], screenshot := [], agent_explanation := "", stuck_counter := 0 }

/-- Python `args.get(key, default)` over the argument dict. -/
def lookupArg (args : List (String × Int)) (k : String) (d : Int) : Int :=
  ((args.find? (fun kv => kv.1 == k)).map (fun kv => kv.2)).getD d

/-- Python `key in args` over the argument dict. -/
def hasArg (args : List (String × Int)) (k : String) : Bool :=
  args.any (fun kv => kv.1 == k)

/-! ## History pruning (src/recon/main.py lines 1403-1436, call site 4613-4616) -/

/-- Drop the screenshot bytes of an entry, keeping every other field
(main.py line 1432: the screenshot is replaced by the empty byte string). -/
def clearScreenshot (e : HistoryEntry) : HistoryEntry :=
  { e with screenshot := [] }

/-- The loop of prune_history (main.py lines 1425-1434): walk the list with
its index and clear the screenshot of every entry whose index is below the
cutoff (the indices at and above the cutoff are the kept ones). -/
def pruneAux (cutoff : Nat) : Nat → List HistoryEntry → List HistoryEntry
  | _, [] => []
  | i, e :: rest =>
    (if i < cutoff then clearScreenshot e else e) :: pruneAux cutoff (i + 1) rest

/-- Embedding of prune_history (main.py lines 1403-1436): history at most
max_items long is returned unchanged; otherwise every entry except the most
recent max_items ones loses its screenshot bytes. -/
def prune_history (history : List HistoryEntry) (max_items : Nat) : List HistoryEntry :=
  if history.length ≤ max_items then history
  else pruneAux (history.length - max_items) 0 history

theorem pruneAux_length (c : Nat) :
    ∀ (i : Nat) (l : List HistoryEntry), (pruneAux c i l).length = l.length := by
  intro i l
  induction l generalizing i with
  | nil => rfl
  | cons e rest ih => simp [pruneAux, ih]

theorem pruneAux_getD (c : Nat) :
    ∀ (l : List HistoryEntry) (i j : Nat), j < l.length →
      (pruneAux c i l).getD j emptyEntry =
        (if i + j < c then clearScreenshot (l.getD j emptyEntry)
         else l.getD j emptyEntry) := by
  intro l
  induction l with
  | nil => intro i j h; simp at h
  | cons e rest ih =>
    intro i j h
    cases j with
    | zero => simp [pruneAux]
    | succ j =>
      have hj : j < rest.length := by simpa using h
      have := ih (i + 1) j hj
      simp only [pruneAux, List.getD_cons_succ, this]
      have harith : i + 1 + j = i + (j + 1) := by omega
      rw [harith]

theorem getD_mem_of_lt (l : List HistoryEntry) (j : Nat) (h : j < l.length) :
    l.getD j emptyEntry ∈ l := by
  induction l generalizing j with
  | nil => simp at h
  | cons e rest ih =>
    cases j with
    | zero => simp
    | succ j =>
      have hj : j < rest.length := by simpa using h
      simpa using Or.inr (ih j hj)

/-- Claim C3: once the history exceeds 10 entries, the pruning pass with
max_items = 5 (call site main.py lines 4613-4616) keeps the length of the
list, empties the screenshot bytes of every entry except the most recent 5,
and leaves the tool_name and agent_explanation of every entry unchanged,
hence non-empty whenever they were non-empty before. -/
theorem prune_history_contract (history : List HistoryEntry)
    (h10 : 10 < history.length)
    (hne : ∀ e ∈ history, e.tool_name ≠ "" ∧ e.agent_explanation ≠ "") :
    (prune_history history 5).length = history.length ∧
    (∀ j, j < history.length - 5 →
      ((prune_history history 5).getD j emptyEntry).screenshot = []) ∧
    (∀ j, j < history.length →
      ((prune_history history 5).getD j emptyEntry).tool_name
          = (history.getD j emptyEntry).tool_name ∧
      ((prune_history history 5).getD j emptyEntry).agent_explanation
          = (history.getD j emptyEntry).agent_explanation ∧
      ((prune_history history 5).getD j emptyEntry).tool_name ≠ "" ∧
      ((prune_history history 5).getD j emptyEntry).agent_explanation ≠ "") := by
  have hcond : ¬ history.length ≤ 5 := by omega
  have hpr : prune_history history 5 = pruneAux (history.length - 5) 0 history := by
    unfold prune_history
    rw [if_neg hcond]
  refine ⟨?_, ?_, ?_⟩
  · rw [hpr]; exact pruneAux_length _ _ _
  · intro j hj
    rw [hpr, pruneAux_getD _ history 0 j (by omega)]
    rw [if_pos (by omega)]
    rfl
  · intro j hj
    have hmem := getD_mem_of_lt history j hj
    have hne2 := hne _ hmem
    rw [hpr, pruneAux_getD _ history 0 j hj]
    split
    · exact ⟨rfl, rfl, hne2.1, hne2.2⟩
    · exact ⟨rfl, rfl, hne2.1, hne2.2⟩

/-- A sample entry used by the C3 witness. -/
def sampleEntry : HistoryEntry :=
  { tool_name := "move_mouse", args := [("x", 100), ("y", 200)],
    screenshot := [255, 216], agent_explanation := "moving", stuck_counter := 0 }

/-- Witness for C3 on a concrete 11-entry history. -/
theorem prune_history_contract_witness :
    (10 < (List.replicate 11 sampleEntry).length ∧
      ∀ e ∈ List.replicate 11 sampleEntry, e.tool_name ≠ "" ∧ e.agent_explanation ≠ "") ∧
    (prune_history (List.replicate 11 sampleEntry) 5).length
        = (List.replicate 11 sampleEntry).length ∧
    (∀ j, j < (List.replicate 11 sampleEntry).length - 5 →
      ((prune_history (List.replicate 11 sampleEntry) 5).getD j emptyEntry).screenshot = []) :=
  ⟨⟨by decide, by decide⟩,
    (prune_history_contract (List.replicate 11 sampleEntry) (by decide) (by decide)).1,
    (prune_history_contract (List.replicate 11 sampleEntry) (by decide) (by decide)).2.1⟩

/-! ## Action diversity (src/recon/main.py lines 2153-2194) -/

/-- Lexicographic comparison of character lists, used to model the Python
sort of the argument items of a dict (keys are unique, so comparing the keys
is enough). -/
def charsLe : List Char → List Char → Bool
  | [], _ => true
  | _ :: _, [] => false
  | a :: as, b :: bs => if a < b then true else if b < a then false else charsLe as bs

/-- Insert one argument pair into a key-sorted list. -/
def insertByKey (p : String × Int) : List (String × Int) → List (String × Int)
  | [] => [p]
  | q :: rest =>
    if charsLe p.1.data q.1.data then p :: q :: rest else q :: insertByKey p rest

/-- Models Python `tuple(sorted(args.items()))` (main.py line 2188). -/
def sortArgs : List (String × Int) → List (String × Int)
  | [] => []
  | p :: rest => insertByKey p (sortArgs rest)

/-- An action signature (main.py lines 2173-2188): a move_mouse action with x
and y arguments is abstracted to its 3 x 3 screen sector, every other action
to its tool name with its sorted arguments. -/
inductive ActionSig where
  | moveSector (x y : Int)
  | plain (tool : String) (args : List (String × Int))
deriving DecidableEq

/-- Signature of one history entry (main.py lines 2173-2188).  The sectors
are min 2 (x fdiv 640) and min 2 (y fdiv 360); fdiv is Python floor
division. -/
def actionSignature (e : HistoryEntry) : ActionSig :=
  if e.tool_name == "move_mouse" && hasArg e.args "x" && hasArg e.args "y" then
    ActionSig.moveSector
      (min 2 (Int.fdiv (lookupArg e.args "x" 0) 640))
      (min 2 (Int.fdiv (lookupArg e.args "y" 0) 360))
  else
    ActionSig.plain e.tool_name (sortArgs e.args)

/-- Embedding of calculate_action_diversity (main.py lines 2153-2194): ratio
of distinct signatures over the most recent window of the history, and 1 on
an empty history. -/
def calculate_action_diversity (history : List HistoryEntry) (window_size : Nat) : ℚ :=
  if history.isEmpty then 1
  else
    ((((history.drop (history.length - window_size)).map actionSignature).dedup.length : ℚ))
      / (((history.drop (history.length - window_size)).length : ℚ))

/-- Claim C9: on the empty history the diversity score is exactly 1, for any
window size, by the explicit early return on main.py line 2170. -/
theorem diversity_empty_history (w : Nat) :
    calculate_action_diversity [] w = 1 := rfl

/-! ## Stuck counter update (src/recon/main.py lines 2336-2401)

Inside get_next_action, for a non-empty history, the three inputs of the
update are the comparator result (is_making_progress and has_visual_change
from compare_screenshots, both forced to false when the stored counter is
already at least 3, main.py lines 2336-2339), the availability of the stored
fingerprint of the previous screenshot, and the Hamming distance between the
current and previous fingerprints. -/

/-- Embedding of the stuck counter update (main.py lines 2372-2401): first
the comparator-driven step (increment when neither progress nor visual
change, else reset to zero), then, when a previous fingerprint is available,
the distance is below 5, the comparator saw no visual change and the counter
is below 1, one more increment. -/
def stuck_counter_update (prev : Nat) (is_making_progress has_visual_change : Bool)
    (hash_available : Bool) (distance : Nat) : Nat :=
  let p := if 3 ≤ prev then false else is_making_progress
  let v := if 3 ≤ prev then false else has_visual_change
  let c := if !p && !v then prev + 1 else 0
  if hash_available && (distance < 5 : Bool) && !v && (c < 1 : Bool) then c + 1 else c

/-- Modelled from the spec: the update the claim describes, where visual
change is the hash distance being at least the threshold 5; the counter
increments exactly when the step shows neither visual change nor assessed
progress and resets to zero otherwise. -/
def claimed_stuck_counter_update (prev : Nat) (is_making_progress : Bool)
    (distance : Nat) : Nat :=
  if !is_making_progress && (distance < 5 : Bool) then prev + 1 else 0

/-- Counterexample to claim C4 as stated: with a previous counter of 0, no
assessed progress, the comparator reporting no visual change, and a hash
distance of 10 (visual change present under the claim's threshold-5 reading),
the code increments the counter to 1 while the claim mandates a reset to 0:
the code keys its primary update on the comparator's visual-change flag, not
on the fingerprint distance. -/
theorem stuck_counter_counterexample :
    stuck_counter_update 0 false false true 10 = 1 ∧
    claimed_stuck_counter_update 0 false 10 = 0 := by
  exact ⟨rfl, rfl⟩

/-- Claim C4 (amended): the counter increments exactly when the comparator
reports neither assessed progress nor assessed visual change (both flags
forced to false once the counter has reached 3); otherwise it resets to zero
and is then set to 1 when a previous fingerprint exists, its distance to the
current one is below 5, and the comparator reported no visual change. -/
theorem stuck_counter_characterization (prev : Nat)
    (p v avail : Bool) (d : Nat) :
    stuck_counter_update prev p v avail d =
      if 3 ≤ prev then prev + 1
      else if !p && !v then prev + 1
      else if avail && (d < 5 : Bool) && !v then 1
      else 0 := by
  unfold stuck_counter_update
  by_cases h3 : 3 ≤ prev
  · simp [h3]
  · simp only [if_neg h3]
    cases p <;> cases v <;> cases avail <;>
      by_cases hd : d < 5 <;> simp [hd]

/-! ## Session loop (src/recon/main.py lines 4388-4812)

execute_task runs `for step in range(max_steps)`.  The paths the claim C1
touches are: an unrecoverable screenshot failure returns status failed with
steps = step (main.py lines 4427-4438); a returned action named report_done
returns status success with steps = step + 1 (main.py lines 4575-4599); and
falling off the loop returns status timeout with steps = max_steps (main.py
lines 4777-4809).  The spec names these terminal states FAILED, COMPLETED
and TIMED_OUT respectively.  What the boundary produces at each step is
abstracted as a step outcome. -/

/-- What one step of the loop yields from its collaborators: either the
screenshot acquisition fails beyond its retry budget, or an action with the
given tool name is returned. -/
inductive StepOutcome where
  | screenshotFailure
  | action (tool_name : String)

/-- The terminal status strings of execute_task: success, timeout, failed
(the spec states COMPLETED, TIMED_OUT, FAILED for these). -/
inductive TaskStatus where
  | success
  | timeout
  | failed
deriving DecidableEq

/-- The loop of execute_task from a given step with the given number of
remaining iterations: a screenshot failure stops with failed and the current
step count, a report_done action stops with success and step + 1, any other
action advances, and exhausting the budget stops with timeout and
max_steps. -/
def runStepsAux (outcome : Nat → StepOutcome) (max_steps : Nat) :
    Nat → Nat → TaskStatus × Nat
  | step, 0 => (TaskStatus.timeout, max_steps)
  | step, remaining + 1 =>
    match outcome step with
    | StepOutcome.screenshotFailure => (TaskStatus.failed, step)
    | StepOutcome.action name =>
      if name = "report_done" then (TaskStatus.success, step + 1)
      else runStepsAux outcome max_steps (step + 1) remaining

/-- Embedding of the execute_task loop (main.py lines 4388-4812). -/
def execute_task (outcome : Nat → StepOutcome) (max_steps : Nat) : TaskStatus × Nat :=
  runStepsAux outcome max_steps 0 max_steps

theorem runStepsAux_timeout (outcome : Nat → StepOutcome) (max_steps : Nat) :
    ∀ (remaining step : Nat),
      (∀ j, step ≤ j → j < step + remaining →
        ∃ n, outcome j = StepOutcome.action n ∧ n ≠ "report_done") →
      runStepsAux outcome max_steps step remaining = (TaskStatus.timeout, max_steps) := by
  intro remaining
  induction remaining with
  | zero => intro step _; rfl
  | succ r ih =>
    intro step h
    obtain ⟨n, hn, hne⟩ := h step le_rfl (by omega)
    simp only [runStepsAux, hn, if_neg hne]
    exact ih (step + 1) (fun j hj1 hj2 => h j (by omega) (by omega))

theorem runStepsAux_done (outcome : Nat → StepOutcome) (max_steps : Nat) :
    ∀ (remaining step i : Nat), step ≤ i → i < step + remaining →
      outcome i = StepOutcome.action "report_done" →
      (∀ j, step ≤ j → j < i →
        ∃ n, outcome j = StepOutcome.action n ∧ n ≠ "report_done") →
      runStepsAux outcome max_steps step remaining = (TaskStatus.success, i + 1) := by
  intro remaining
  induction remaining with
  | zero => intro step i h1 h2; omega
  | succ r ih =>
    intro step i h1 h2 hdone hbefore
    by_cases hstep : i = step
    · subst hstep
      simp [runStepsAux, hdone]
    · obtain ⟨n, hn, hne⟩ := hbefore step le_rfl (by omega)
      simp only [runStepsAux, hn, if_neg hne]
      exact ih (step + 1) i (by omega) (by omega) hdone
        (fun j hj1 hj2 => hbefore j (by omega) hj2)

/-- Claim C1: if the action returned at step i (0-based, within the budget)
is report_done and every earlier step returned some other action, the loop
stops with status success (the spec state COMPLETED) and steps = i + 1; and
if every step of the budget returns an action other than report_done (so no
screenshot failure occurs either), the loop runs all max_steps steps and
stops with status timeout (the spec state TIMED_OUT) and
steps = max_steps. -/
theorem execute_task_terminal (outcome : Nat → StepOutcome) (max_steps : Nat) :
    (∀ i, i < max_steps →
      outcome i = StepOutcome.action "report_done" →
      (∀ j, j < i → ∃ n, outcome j = StepOutcome.action n ∧ n ≠ "report_done") →
      execute_task outcome max_steps = (TaskStatus.success, i + 1)) ∧
    ((∀ j, j < max_steps → ∃ n, outcome j = StepOutcome.action n ∧ n ≠ "report_done") →
      execute_task outcome max_steps = (TaskStatus.timeout, max_steps)) := by
  constructor
  · intro i hi hdone hbefore
    exact runStepsAux_done outcome max_steps max_steps 0 i (by omega) (by omega) hdone
      (fun j _ hj => hbefore j hj)
  · intro h
    exact runStepsAux_timeout outcome max_steps max_steps 0
      (fun j _ hj => h j (by omega))

/-- Witness for C1: report_done on the first step of a 3-step budget gives
(success, 1); a session that always moves the mouse gives (timeout, 3). -/
theorem execute_task_terminal_witness :
    execute_task (fun _ => StepOutcome.action "report_done") 3 = (TaskStatus.success, 1) ∧
    execute_task (fun _ => StepOutcome.action "move_mouse") 3 = (TaskStatus.timeout, 3) :=
  ⟨(execute_task_terminal (fun _ => StepOutcome.action "report_done") 3).1 0 (by omega)
      rfl (fun j hj => absurd hj (by omega)),
    (execute_task_terminal (fun _ => StepOutcome.action "move_mouse") 3).2
      (fun j _ => ⟨"move_mouse", rfl, by decide⟩)⟩

/-! ## No-function-call fallback (src/recon/main.py lines 2822-2875 and 2963-2969)

When the model yields no function call on all 3 attempts, the block at
main.py lines 2826-2875 chooses a fallback action.  Its `return` statement
(line 2875) is indented inside the final `else` branch only (the branch for
a non-empty history with stuck counter below 2): in the empty-history branch
(lines 2833-2836) and in the stuck branch (lines 2837-2856) the computed
arguments are never returned, the retry loop ends, and control reaches the
final emergency fallback (lines 2963-2969), which returns a move to the
screen center. -/

/-- The final emergency fallback action (main.py lines 2963-2969). -/
def emergencyFallbackAction : String × List (String × Int) :=
  ("move_mouse", [("x", 960), ("y", 540)])

/-- The diagonal-quadrant arguments the stuck branch computes (main.py lines
2838-2854): the screen quadrant diagonally opposite the last move_mouse
target, or the fixed point (800, 400) when the last action was not a
move_mouse with arguments.  In the code as written these arguments are
computed and then dropped. -/
def stuckRegionArgs (history : List HistoryEntry) : List (String × Int) :=
  match history.getLast? with
  | some last =>
    if last.tool_name == "move_mouse" && !last.args.isEmpty then
      if lookupArg last.args "x" 960 < 960 && lookupArg last.args "y" 540 < 540 then
        [("x", 1400), ("y", 800)]
      else if !(lookupArg last.args "x" 960 < 960) && lookupArg last.args "y" 540 < 540 then
        [("x", 400), ("y", 800)]
      else if lookupArg last.args "x" 960 < 960 && !(lookupArg last.args "y" 540 < 540) then
        [("x", 1400), ("y", 200)]
      else
        [("x", 400), ("y", 200)]
    else
      [("x", 800), ("y", 400)]
  | none => [("x", 800), ("y", 400)]

/-- The action get_next_action actually returns when no function call is
produced on all 3 attempts (main.py lines 2826-2875 plus the fall-through to
lines 2963-2969): the empty-history and stuck branches fall through to the
emergency center move; only the non-stuck branch returns directly, with a
scroll-down when some move_mouse is in the history and a center move
otherwise. -/
def noFunctionCallResult (history : List HistoryEntry) (stuck_counter : Nat) :
    String × List (String × Int) :=
  if history.length = 0 then
    emergencyFallbackAction
  else if 2 ≤ stuck_counter then
    emergencyFallbackAction
  else if history.any (fun h => h.tool_name == "move_mouse") then
    ("scroll_wheel_down", [("x", 100)])
  else
    ("move_mouse", [("x", 960), ("y", 540)])

/-- The history of the C2 failing input: one move_mouse to (400, 200), the
top-left quadrant. -/
def stuckMoveEntry : HistoryEntry :=
  { tool_name := "move_mouse", args := [("x", 400), ("y", 200)],
    screenshot := [], agent_explanation := "moving to the menu", stuck_counter := 2 }

/-- Claim C2, evaluation at the failing input: with a last move_mouse to
(400, 200) and stuck counter 2, the quadrant arguments the stuck branch
computes are (1400, 800) as the claim describes, but the function returns
the emergency center move (960, 540), because the return statement of the
fallback block is inside the non-stuck branch only and the stuck branch
falls through. -/
theorem fallback_stuck_eval :
    noFunctionCallResult [stuckMoveEntry] 2 = ("move_mouse", [("x", 960), ("y", 540)]) ∧
    stuckRegionArgs [stuckMoveEntry] = [("x", 1400), ("y", 800)] ∧
    noFunctionCallResult [] 0 = ("move_mouse", [("x", 960), ("y", 540)]) ∧
    noFunctionCallResult [stuckMoveEntry] 1 = ("scroll_wheel_down", [("x", 100)]) := by
  refine ⟨rfl, by decide, rfl, by decide⟩

/-! ## Coordinate corrector (src/recon/main.py lines 3002-3347)

coordinate_correction_helper is driven by external collaborators: the DOM
intent matcher, the OCR intent matcher, the vision model and the move
command execution.  These are abstracted as an environment: each tier has an
optional matched target (present when that tier finds a candidate and, for
the model tier, the parsed COORDINATES), and an optional move error (present
when the issued move_mouse command raises, carrying the Python error
message).  The embedding assumes the configuration of the only call site
(main.py lines 4505-4517): rabbitize_url and step are provided.  The
model-tier timeout and non-parse sub-cases are folded into an absent model
coordinate, whose explanation text carries the analysis. -/

structure CorrectionEnv where
  domMatch : Option (Int × Int)
  domMoveError : Option String
  ocrMatch : Option (Int × Int)
  ocrMoveError : Option String
  modelCoords : Option (Int × Int)
  modelMoveError : Option String
  modelAnalysis : String

/-- The model-assisted tier (main.py lines 3164-3332): on parsed coordinates
within 0-1920 x 0-1080 the move is issued; a move failure returns the
failure with the underlying error message (line 3320); out-of-bounds or
absent coordinates return the failure with the analysis text
(line 3331). -/
def modelTier (env : CorrectionEnv) (pos : Int × Int) : Bool × (Int × Int) × String :=
  match env.modelCoords with
  | some (x, y) =>
    if 0 ≤ x ∧ x ≤ 1920 ∧ 0 ≤ y ∧ y ≤ 1080 then
      match env.modelMoveError with
      | none => (true, (x, y), "Corrected: " ++ env.modelAnalysis)
      | some e => (false, pos, "Failed to execute move: " ++ e)
    else (false, pos, "Correction failed: " ++ env.modelAnalysis)
  | none => (false, pos, "Correction failed: " ++ env.modelAnalysis)

/-- The OCR tier (main.py lines 3116-3143): on a match the move is issued; a
move failure is caught (line 3137) and control falls through to the model
tier. -/
def ocrTier (env : CorrectionEnv) (pos : Int × Int) : Bool × (Int × Int) × String :=
  match env.ocrMatch with
  | some (x, y) =>
    match env.ocrMoveError with
    | none => (true, (x, y), "Moved to OCR match")
    | some _ => modelTier env pos
  | none => modelTier env pos

/-- Embedding of coordinate_correction_helper (main.py lines 3002-3347): an
early return when the cursor is neither red nor not_found (line 3032); then
the DOM tier (lines 3039-3114), whose move failure is caught (line 3112) and
falls through to the OCR tier; then the OCR and model tiers. -/
def coordinate_correction_helper (env : CorrectionEnv) (cursor_color : String)
    (current_position : Int × Int) : Bool × (Int × Int) × String :=
  if cursor_color ≠ "red" ∧ cursor_color ≠ "not_found" then
    (false, current_position, "Cursor is already on a clickable element")
  else
    match env.domMatch with
    | some (x, y) =>
      match env.domMoveError with
      | none => (true, (x, y), "Moved to DOM match")
      | some _ => ocrTier env current_position
    | none => ocrTier env current_position

/-- The environment of the C6 counterexample: the DOM tier matches and its
move raises, then the OCR tier matches and its move succeeds. -/
def cexCorrectionEnv : CorrectionEnv :=
  { domMatch := some (100, 100), domMoveError := some "connection reset",
    ocrMatch := some (200, 300), ocrMoveError := none,
    modelCoords := none, modelMoveError := none, modelAnalysis := "" }

/-- Counterexample to claim C6 as stated: in this invocation the DOM-tier
move command fails with an error, yet the corrector returns success = true
with the OCR target instead of (false, original position, error text): a
DOM-tier move failure falls through to the OCR tier rather than returning
failure. -/
theorem correction_move_failure_counterexample :
    cexCorrectionEnv.domMoveError = some "connection reset" ∧
    coordinate_correction_helper cexCorrectionEnv "red" (50, 60)
      = (true, (200, 300), "Moved to OCR match") := by
  exact ⟨rfl, rfl⟩

/-- Claim C6 (amended): a move command failure never escapes the corrector,
but only the model tier converts it into a failure return carrying the
underlying error message; a DOM-tier move failure makes the corrector
continue with the OCR tier, and an OCR-tier move failure makes it continue
with the model tier. -/
theorem correction_move_failure_behavior (env : CorrectionEnv) (pos : Int × Int) :
    (∀ x y, env.domMatch = some (x, y) → env.domMoveError.isSome →
      coordinate_correction_helper env "red" pos = ocrTier env pos) ∧
    (∀ x y, env.ocrMatch = some (x, y) → env.ocrMoveError.isSome →
      ocrTier env pos = modelTier env pos) ∧
    (∀ x y e, env.modelCoords = some (x, y) →
      0 ≤ x ∧ x ≤ 1920 ∧ 0 ≤ y ∧ y ≤ 1080 →
      env.modelMoveError = some e →
      modelTier env pos = (false, pos, "Failed to execute move: " ++ e)) := by
  refine ⟨?_, ?_, ?_⟩
  · intro x y hm he
    unfold coordinate_correction_helper
    rw [if_neg (by simp)]
    rw [hm]
    obtain ⟨e, he⟩ := Option.isSome_iff_exists.mp he
    rw [he]
  · intro x y hm he
    unfold ocrTier
    rw [hm]
    obtain ⟨e, he⟩ := Option.isSome_iff_exists.mp he
    rw [he]
  · intro x y e hm hb he
    unfold modelTier
    rw [hm, he]
    simp [hb]

/-- The environment of the C6 witness: every tier matches and every issued
move fails. -/
def witCorrectionEnv : CorrectionEnv :=
  { domMatch := some (100, 100), domMoveError := some "err1",
    ocrMatch := some (200, 300), ocrMoveError := some "err2",
    modelCoords := some (400, 500), modelMoveError := some "err3",
    modelAnalysis := "found a tab" }

/-- Witness for the amended C6: with every tier failing its move, the DOM
tier falls to the OCR tier, the OCR tier falls to the model tier, and the
model tier returns the failure with the error message; composed, the
corrector returns (false, original position, the error text). -/
theorem correction_move_failure_behavior_witness :
    coordinate_correction_helper witCorrectionEnv "red" (50, 60)
        = ocrTier witCorrectionEnv (50, 60) ∧
    ocrTier witCorrectionEnv (50, 60) = modelTier witCorrectionEnv (50, 60) ∧
    modelTier witCorrectionEnv (50, 60)
        = (false, (50, 60), "Failed to execute move: " ++ "err3") := by
  obtain ⟨h1, h2, h3⟩ := correction_move_failure_behavior witCorrectionEnv (50, 60)
  exact ⟨h1 100 100 rfl rfl, h2 200 300 rfl rfl,
    h3 400 500 "err3" rfl (by norm_num) rfl⟩

/-! ## Structural element filter (src/recon/main.py lines 3838-3875) -/

/-- A DOM element descriptor as the filter sees it: a tag name and an
attribute dict (all values the filter inspects are strings). -/
structure DomElement where
  tagName : String
  attributes : List (String × String)
deriving DecidableEq

/-- Python `attributes.get(key, "")`. -/
def attrGet (e : DomElement) (k : String) : String :=
  ((e.attributes.find? (fun kv => kv.1 == k)).map (fun kv => kv.2)).getD ""

/-- Lowercase of a whole string, models Python `str.lower()`. -/
def lowerString (s : String) : String := String.mk (lowerChars s)

/-- The inherently interactive tags (main.py line 3858). -/
def interactiveTags : List String := ["a", "button", "input", "select", "textarea"]

/-- The interactive ARIA roles (main.py line 3871). -/
def interactiveRoles : List String :=
  ["button", "link", "menuitem", "tab", "checkbox", "radio", "switch", "option"]

/-- The click-type event substrings (main.py line 3865). -/
def clickEvents : List String := ["click", "mousedown", "touchstart"]

/-- The first block of the loop (main.py lines 3858-3861): tags a, button,
select, textarea are included unconditionally, input unless its type is
hidden; only this block ends with a continue. -/
def autoInclude (e : DomElement) : Bool :=
  interactiveTags.contains (lowerString e.tagName) &&
    (lowerString e.tagName != "input" || attrGet e "type" != "hidden")

/-- The second block (main.py lines 3864-3867): some attribute name contains
a click-type event substring (all modelled values are strings, so the
isinstance check holds). -/
def hasClickAttr (e : DomElement) : Bool :=
  e.attributes.any (fun kv => clickEvents.any (fun ev => containsSub ev kv.1))

/-- The third block (main.py lines 3870-3873): the role attribute, lowered,
is an interactive ARIA role. -/
def hasInteractiveRole (e : DomElement) : Bool :=
  interactiveRoles.contains (lowerString (attrGet e "role"))

/-- What the loop body of filter_clickable_elements appends for one element:
the first block appends once and continues; otherwise the second block can
append (breaking only its inner attribute loop) and the third block can
append again, so one element can be appended twice. -/
def elementAppends (e : DomElement) : List DomElement :=
  if autoInclude e then [e]
  else
    (if hasClickAttr e then [e] else []) ++ (if hasInteractiveRole e then [e] else [])

/-- Embedding of filter_clickable_elements (main.py lines 3838-3875). -/
def filter_clickable_elements (l : List DomElement) : List DomElement :=
  (l.map elementAppends).join

/-- The membership condition of the filter: inherently interactive tag
(input only when not hidden), click-type event attribute, or interactive
ARIA role. -/
def isClickable (e : DomElement) : Bool :=
  autoInclude e || hasClickAttr e || hasInteractiveRole e

/-- Occurrence count of an element in a list. -/
def countElem (l : List DomElement) (e : DomElement) : Nat :=
  l.countP (fun x => decide (x = e))

/-- The C7 counterexample element: a div with an onclick attribute and the
role button. -/
def dupElement : DomElement :=
  { tagName := "div", attributes := [("onclick", "go()"), ("role", "button")] }

/-- Counterexample to claim C7 as stated: an element that both carries a
click-type event attribute and has an interactive ARIA role is appended by
the second block and again by the third block (the break on main.py line
3867 leaves only the inner attribute loop), so it occurs twice in the output
although it occurs once in the input: the output is not a subset with each
input element occurring at most once. -/
theorem filter_clickable_counterexample :
    countElem [dupElement] dupElement = 1 ∧
    countElem (filter_clickable_elements [dupElement]) dupElement = 2 := by
  exact ⟨by decide, by decide⟩

theorem elementAppends_all_eq (e : DomElement) :
    ∀ x ∈ elementAppends e, x = e := by
  intro x hx
  unfold elementAppends at hx
  split at hx
  · simpa using hx
  · rcases List.mem_append.mp hx with h | h <;>
      · split at h <;> simpa using h

theorem elementAppends_ne_nil_iff (e : DomElement) :
    elementAppends e ≠ [] ↔ isClickable e = true := by
  unfold elementAppends isClickable
  cases ha : autoInclude e <;> cases hc : hasClickAttr e <;>
    cases hr : hasInteractiveRole e <;> simp

theorem elementAppends_length (e : DomElement) :
    (elementAppends e).length
      = (if autoInclude e then 1
         else (if hasClickAttr e then 1 else 0) + (if hasInteractiveRole e then 1 else 0)) := by
  unfold elementAppends
  cases ha : autoInclude e <;> cases hc : hasClickAttr e <;>
    cases hr : hasInteractiveRole e <;> simp

theorem countElem_elementAppends (a e : DomElement) :
    countElem (elementAppends a) e
      = if a = e then (elementAppends a).length else 0 := by
  by_cases hae : a = e
  · subst hae
    rw [if_pos rfl]
    unfold countElem
    have : ∀ (xs : List DomElement), (∀ x ∈ xs, x = a) →
        xs.countP (fun x => decide (x = a)) = xs.length := by
      intro xs
      induction xs with
      | nil => intro _; rfl
      | cons y ys ih =>
        intro h
        have hy : y = a := h y (by simp)
        rw [List.countP_cons]
        simp [hy, ih (fun x hx => h x (by simp [hx]))]
    exact this _ (elementAppends_all_eq a)
  · rw [if_neg hae]
    unfold countElem
    have : ∀ (xs : List DomElement), (∀ x ∈ xs, x = a) →
        xs.countP (fun x => decide (x = e)) = 0 := by
      intro xs
      induction xs with
      | nil => intro _; rfl
      | cons y ys ih =>
        intro h
        have hy : y = a := h y (by simp)
        rw [List.countP_cons]
        have : ¬ (y = e) := by rw [hy]; exact hae
        simp [this, ih (fun x hx => h x (by simp [hx]))]
    exact this _ (elementAppends_all_eq a)

/-- Claim C7 (amended): the filter output contains exactly the input
elements that are inherently interactive tags (a, button, select, textarea,
and input except type hidden), carry a click-type event attribute, or have
an interactive ARIA role; each occurrence of an input element is kept at most
twice, twice exactly when the element is not auto-included by its tag but
both carries a click-type event attribute and has an interactive role, and
once or not at all otherwise; script and style elements with no such
attributes are excluded and button and a elements are included regardless of
their attributes. -/
theorem filter_clickable_characterization (l : List DomElement) (e : DomElement) :
    (e ∈ filter_clickable_elements l ↔ e ∈ l ∧ isClickable e = true) ∧
    countElem (filter_clickable_elements l) e
        = countElem l e * (elementAppends e).length ∧
    (elementAppends e).length ≤ 2 ∧
    ((elementAppends e).length = 2 ↔
      autoInclude e = false ∧ hasClickAttr e = true ∧ hasInteractiveRole e = true) ∧
    (∀ attrs, isClickable { tagName := "script", attributes := attrs } = true ↔
      (hasClickAttr { tagName := "script", attributes := attrs } = true ∨
        hasInteractiveRole { tagName := "script", attributes := attrs } = true)) ∧
    (∀ attrs, isClickable { tagName := "button", attributes := attrs } = true) ∧
    (∀ attrs, isClickable { tagName := "a", attributes := attrs } = true) := by
  refine ⟨?_, ?_, ?_, ?_, ?_, ?_, ?_⟩
  · unfold filter_clickable_elements
    rw [List.mem_join]
    constructor
    · rintro ⟨xs, hxs, hmem⟩
      obtain ⟨a, hal, rfl⟩ := List.mem_map.mp hxs
      have hae := elementAppends_all_eq a e hmem
      subst hae
      refine ⟨hal, ?_⟩
      rw [← elementAppends_ne_nil_iff]
      intro hnil
      rw [hnil] at hmem
      simp at hmem
    · rintro ⟨hel, hcl⟩
      refine ⟨elementAppends e, List.mem_map.mpr ⟨e, hel, rfl⟩, ?_⟩
      have hnil := (elementAppends_ne_nil_iff e).mpr hcl
      cases hxs : elementAppends e with
      | nil => exact absurd hxs hnil
      | cons y ys =>
        have hy : y = e := elementAppends_all_eq e y (by rw [hxs]; simp)
        simp [hy]
  · induction l with
    | nil => simp [filter_clickable_elements, countElem]
    | cons a rest ih =>
      unfold filter_clickable_elements at *
      simp only [List.map_cons, List.join_cons]
      unfold countElem at *
      rw [List.countP_append, List.countP_cons]
      have happ := countElem_elementAppends a e
      unfold countElem at happ
      rw [happ, ih]
      by_cases hae : a = e
      · simp only [hae, if_pos rfl, decide_True, if_true]
        ring
      · simp [hae]
  · rw [elementAppends_length]
    split
    · omega
    · split <;> split <;> omega
  · rw [elementAppends_length]
    cases ha : autoInclude e <;> cases hc : hasClickAttr e <;>
      cases hr : hasInteractiveRole e <;> simp
  · intro attrs
    have hsc : interactiveTags.contains (lowerString "script") = false := by decide
    have hauto : autoInclude { tagName := "script", attributes := attrs } = false := by
      unfold autoInclude
      simp only [hsc]
      rfl
    unfold isClickable
    rw [hauto]
    simp
  · intro attrs
    have h1 : interactiveTags.contains (lowerString "button") = true := by decide
    have h2 : (lowerString "button" != "input") = true := by decide
    have hauto : autoInclude { tagName := "button", attributes := attrs } = true := by
      unfold autoInclude
      simp only [h1, h2]
      rfl
    unfold isClickable
    rw [hauto]
    rfl
  · intro attrs
    have h1 : interactiveTags.contains (lowerString "a") = true := by decide
    have h2 : (lowerString "a" != "input") = true := by decide
    have hauto : autoInclude { tagName := "a", attributes := attrs } = true := by
      unfold autoInclude
      simp only [h1, h2]
      rfl
    unfold isClickable
    rw [hauto]
    rfl

end Recon
